import Mathlib

/-!
Verification of the streaming ingestion and analytics core of the
quant-analytics-dashboard repository.

Shallow embedding conventions:
* Python floats are modelled as exact rationals (`ℚ`); values produced through
  a square root (standard deviations, z-scores, correlations) live in `ℝ`.
* Timestamps are rationals (seconds since the epoch); the exchange feed carries
  an integer millisecond field.
* Fallible Python code (KeyError / ValueError flowing into a `try ... except`)
  is modelled with `Except` / `Option`; a caught exception is an `Except.error`
  value that the caller turns into "drop the message" or a fallback object.
* Library calls whose numerics are outside the rational fragment
  (`statsmodels.OLS.fit`, `statsmodels.adfuller`) are abstracted as function
  parameters; no claim below depends on their values.

The sources embedded here are `src/services/data_ingestion.py`,
`src/services/alert_service.py`, `src/services/analytics.py` (namespace `Svc`)
and the variant classes defined inside `src/app.py` (namespace `App`).
-/

/-- A normalized trade tick (`normalize_tick` output / `save_tick` row). -/
structure Tick where
  symbol : String
  timestamp : ℚ
  price : ℚ
  size : ℚ
deriving DecidableEq, Repr

/-- A value read from a JSON field that the code feeds to `float(...)`:
it can be absent (KeyError), present but non-numeric (ValueError), or a
number. -/
inductive FieldVal where
  | missing : FieldVal
  | nonNumeric : FieldVal
  | num : ℚ → FieldVal
deriving DecidableEq, Repr

/-- The logical shape of a raw Binance trade event as `on_message` sees it
after `json.loads`: fields `e` (event type), `s` (symbol), `E` (event time in
milliseconds), `p` (price string), `q` (quantity string).  Each field may be
absent. -/
structure RawMsg where
  e : Option String
  s : Option String
  E : Option ℤ
  p : FieldVal
  q : FieldVal
deriving DecidableEq, Repr

/-- Python's `str.lower()` on the ASCII symbol strings the feed delivers:
lower-case every character. -/
def strToLower (s : String) : String := ⟨s.data.map Char.toLower⟩

/-- The failure of tick normalization (the spec's name for the KeyError /
ValueError raised inside `normalize_tick`). -/
inductive MalformedTickError where
  | missingField : String → MalformedTickError
  | nonNumericField : String → MalformedTickError
deriving DecidableEq, Repr

/-- `BinanceDataIngestion.normalize_tick` (src/services/data_ingestion.py,
lines 20-26): lower-case the symbol, convert the millisecond event time to
seconds, parse price and quantity.  A missing or non-numeric field raises,
modelled as `Except.error`; the fields are read in source order
(`s`, `E`, `p`, `q`). -/
def normalize_tick (d : RawMsg) : Except MalformedTickError Tick :=
  match d.s with
  | none => .error (.missingField "s")
  | some sym =>
    match d.E with
    | none => .error (.missingField "E")
    | some t =>
      match d.p with
      | .missing => .error (.missingField "p")
      | .nonNumeric => .error (.nonNumericField "p")
      | .num price =>
        match d.q with
        | .missing => .error (.missingField "q")
        | .nonNumeric => .error (.nonNumericField "q")
        | .num size =>
          .ok { symbol := strToLower sym, timestamp := (t : ℚ) / 1000,
                price := price, size := size }

/-- The buffer update inside `BinanceDataIngestion.on_message`
(src/services/data_ingestion.py lines 36-39 and src/app.py lines 91-94):
`self.buffer.append(tick); if len(self.buffer) > 1000: self.buffer.pop(0)`. -/
def appendTickBounded (buf : List Tick) (t : Tick) : List Tick :=
  let b := buf ++ [t]
  if 1000 < b.length then b.drop 1 else b

/-- `BinanceDataIngestion.on_message` (src/services/data_ingestion.py lines
28-45).  The input is `none` when `json.loads` fails.  The whole body runs
inside `try ... except`, so the handler is a total function: a malformed trade
message is dropped (buffer unchanged, nothing forwarded).  The second
component is the tick that was persisted and fanned out to the callbacks,
if any. -/
def on_message (buf : List Tick) (msg : Option RawMsg) : List Tick × Option Tick :=
  match msg with
  | none => (buf, none)
  | some d =>
    if d.e = some "trade" then
      match normalize_tick d with
      | .ok t => (appendTickBounded buf t, some t)
      | .error _ => (buf, none)
    else (buf, none)

/-- One `appendTickBounded` step, written as a drop of the oldest entries. -/
lemma appendTickBounded_eq_drop (buf : List Tick) (t : Tick) (h : buf.length ≤ 1000) :
    appendTickBounded buf t = (buf ++ [t]).drop (buf.length + 1 - 1000) := by
  unfold appendTickBounded
  rcases Nat.lt_or_ge buf.length 1000 with hlt | hge
  · rw [if_neg (by simp; omega)]
    have : buf.length + 1 - 1000 = 0 := by omega
    rw [this, List.drop_zero]
  · have hbe : buf.length = 1000 := le_antisymm h hge
    rw [if_pos (by simp [hbe])]
    have : buf.length + 1 - 1000 = 1 := by omega
    rw [this]

/-- Folding the bounded append over a tick sequence from any admissible start
state keeps exactly the most recent 1000 entries of `buf ++ ts`. -/
lemma foldl_appendTickBounded (ts : List Tick) :
    ∀ buf : List Tick, buf.length ≤ 1000 →
      ts.foldl appendTickBounded buf = (buf ++ ts).drop (buf.length + ts.length - 1000) := by
  induction ts with
  | nil =>
    intro buf h
    simp [Nat.sub_eq_zero_of_le h]
  | cons t ts ih =>
    intro buf h
    rw [List.foldl_cons]
    have hlen : (appendTickBounded buf t).length ≤ 1000 := by
      unfold appendTickBounded
      rcases Nat.lt_or_ge (buf ++ [t]).length 1000 with hlt | hge
      · rw [if_neg (by omega)]; omega
      · simp only [List.length_append, List.length_cons, List.length_nil] at hge ⊢
        by_cases hc : 1000 < buf.length + 1
        · rw [if_pos (by simpa using hc)]
          simp
          omega
        · rw [if_neg (by simpa using hc)]
          simp
          omega
    rw [ih _ hlen, appendTickBounded_eq_drop buf t h]
    rcases Nat.lt_or_ge buf.length 1000 with hlt | hge
    · have h0 : buf.length + 1 - 1000 = 0 := by omega
      rw [h0, List.drop_zero, List.length_append, List.length_cons, List.length_nil]
      have : buf.length + 1 + ts.length - 1000 = buf.length + (ts.length + 1) - 1000 := by omega
      rw [this]
      simp [List.append_assoc]
    · have hbe : buf.length = 1000 := le_antisymm h hge
      have h1 : buf.length + 1 - 1000 = 1 := by omega
      rw [h1]
      have hbne : buf ≠ [] := by
        intro hc; rw [hc] at hbe; simp at hbe
      have hdrop1 : (buf ++ [t]).drop 1 = buf.drop 1 ++ [t] :=
        List.drop_append_of_le_length (by omega)
      rw [hdrop1]
      have hlen2 : (buf.drop 1 ++ [t]).length = 1000 := by
        simp [List.length_drop, hbe]
      rw [hlen2]
      have h2 : 1000 + ts.length - 1000 = ts.length := by omega
      rw [h2]
      have h3 : buf.length + (ts.length + 1) - 1000 = ts.length + 1 := by omega
      simp only [List.length_cons]
      rw [h3]
      have hL : (buf.drop 1 ++ [t] ++ ts) = (buf ++ t :: ts).drop 1 := by
        rw [List.drop_append_of_le_length (by omega)]
        simp
      rw [hL, List.drop_drop, Nat.add_comm 1 ts.length]

/-- Claim C1: appending any sequence of N ticks to the ingestion buffer
(capacity 1000) leaves a buffer of length min(N, 1000) that holds exactly the
most recent 1000 appended ticks, in append order: the oldest entries are the
ones evicted. -/
theorem ingestion_buffer_bounded_fifo (ts : List Tick) :
    (ts.foldl appendTickBounded []).length = min ts.length 1000 ∧
      ts.foldl appendTickBounded [] = ts.drop (ts.length - 1000) := by
  have h := foldl_appendTickBounded ts [] (by simp)
  simp only [List.nil_append, List.length_nil, Nat.zero_add] at h
  refine ⟨?_, h⟩
  rw [h, List.length_drop]
  omega

/-- A raw trade event is malformed when a required field is missing or the
price/quantity is non-numeric (the conditions under which `normalize_tick`
raises). -/
def RawMsg.malformed (d : RawMsg) : Prop :=
  d.s = none ∨ d.E = none ∨ d.p = .missing ∨ d.p = .nonNumeric ∨
    d.q = .missing ∨ d.q = .nonNumeric

instance (d : RawMsg) : Decidable d.malformed := by
  unfold RawMsg.malformed; infer_instance

/-- Claim C9: a raw trade event with a required field missing or a non-numeric
price/quantity makes normalization fail with a MalformedTickError (no partial
tick), and `on_message` drops the message: the buffer is unchanged and no tick
is persisted or fanned out.  `on_message` is a total function of the state, so
the feed worker never propagates an exception. -/
theorem malformed_tick_dropped (buf : List Tick) (d : RawMsg)
    (htrade : d.e = some "trade") (hmal : d.malformed) :
    (∃ err, normalize_tick d = .error err) ∧ on_message buf (some d) = (buf, none) := by
  obtain ⟨e, s, E, p, q⟩ := d
  have hstep : ∃ err, normalize_tick ⟨e, s, E, p, q⟩ = .error err := by
    rcases s with _ | sym
    · exact ⟨_, rfl⟩
    rcases E with _ | tm
    · exact ⟨_, rfl⟩
    rcases p with _ | _ | price
    · exact ⟨_, rfl⟩
    · exact ⟨_, rfl⟩
    rcases q with _ | _ | size
    · exact ⟨_, rfl⟩
    · exact ⟨_, rfl⟩
    · simp [RawMsg.malformed] at hmal
  obtain ⟨err, herr⟩ := hstep
  refine ⟨⟨err, herr⟩, ?_⟩
  simp only [on_message]
  rw [if_pos htrade, herr]

/-- Concrete instance of `malformed_tick_dropped`: a trade event with no price
field is rejected and dropped. -/
theorem malformed_tick_dropped_witness :
    (∃ err, normalize_tick ⟨some "trade", some "BTCUSDT", some 1700000000000,
        .missing, .num 1⟩ = .error err) ∧
      on_message [] (some ⟨some "trade", some "BTCUSDT", some 1700000000000,
        .missing, .num 1⟩) = ([], none) :=
  malformed_tick_dropped [] ⟨some "trade", some "BTCUSDT", some 1700000000000, .missing, .num 1⟩
    (by rfl) (by decide)

/-- A user alert rule (`AlertService.create_alert` dict,
src/services/alert_service.py lines 15-27).  The wall-clock strings
(`created_at`, `triggered_at`) are threaded in as parameters. -/
structure Alert where
  id : ℕ
  name : String
  condition : String
  symbol : String
  threshold : ℚ
  is_active : Bool
  triggered : Bool
  created_at : String
  triggered_at : Option String
  triggered_price : Option ℚ
deriving DecidableEq, Repr

/-- The per-alert body of `AlertService.check_price_alert`
(src/services/alert_service.py lines 34-52): skip inactive or already
triggered alerts; on a symbol match, fire when `condition == 'above'` and
`price > threshold` or `condition == 'below'` and `price < threshold`.
Returns the updated alert and whether it fired (was appended to the
`triggered` list). -/
def check_one (now sym : String) (price : ℚ) (a : Alert) : Alert × Bool :=
  if a.is_active = false ∨ a.triggered = true then (a, false)
  else if a.symbol = sym then
    if a.condition = "above" ∧ a.threshold < price then
      ({a with triggered := true, triggered_at := some now,
               triggered_price := some price}, true)
    else if a.condition = "below" ∧ price < a.threshold then
      ({a with triggered := true, triggered_at := some now,
               triggered_price := some price}, true)
    else (a, false)
  else (a, false)

/-- `AlertService.check_price_alert` (src/services/alert_service.py lines
32-58): one pass over the alert list, mutating fired alerts in place and
collecting copies of the fired ones (which are then delivered to every
callback, in order). -/
def check_price_alert (now : String) (alerts : List Alert) (t : Tick) :
    List Alert × List Alert :=
  (alerts.map (fun a => (check_one now t.symbol t.price a).1),
   alerts.filterMap (fun a =>
     let r := check_one now t.symbol t.price a
     if r.2 then some r.1 else none))

/-- The alert-list state after one `check_price_alert` call. -/
def step_alerts (now : String) (alerts : List Alert) (t : Tick) : List Alert :=
  (check_price_alert now alerts t).1

/-- Whether the alert at position `i` fires during one `check_price_alert`
call. -/
def fires_at (now : String) (alerts : List Alert) (t : Tick) (i : ℕ) : Bool :=
  match alerts[i]? with
  | some a => (check_one now t.symbol t.price a).2
  | none => false

/-- Number of times the alert at position `i` fires across a sequence of tick
checks. -/
def fire_count (now : String) (alerts : List Alert) (ticks : List Tick) (i : ℕ) : ℕ :=
  match ticks with
  | [] => 0
  | t :: ts =>
    (if fires_at now alerts t i then 1 else 0) +
      fire_count now (step_alerts now alerts t) ts i

/-- A triggered alert is skipped unchanged by the per-alert check. -/
lemma check_one_of_triggered (now sym : String) (price : ℚ) (a : Alert)
    (h : a.triggered = true) : check_one now sym price a = (a, false) := by
  unfold check_one
  rw [if_pos (Or.inr h)]

/-- If the per-alert check fires, the alert was untriggered before and is
triggered afterwards. -/
lemma check_one_fired (now sym : String) (price : ℚ) (a : Alert)
    (h : (check_one now sym price a).2 = true) :
    a.triggered = false ∧ (check_one now sym price a).1.triggered = true := by
  unfold check_one at h ⊢
  by_cases h1 : a.is_active = false ∨ a.triggered = true
  · rw [if_pos h1] at h; simp at h
  · have hnt : a.triggered = false := by
      cases ht : a.triggered
      · rfl
      · exact absurd (Or.inr ht) h1
    rw [if_neg h1] at h ⊢
    by_cases h2 : a.symbol = sym
    · rw [if_pos h2] at h ⊢
      by_cases h3 : a.condition = "above" ∧ a.threshold < price
      · rw [if_pos h3]
        exact ⟨hnt, rfl⟩
      · rw [if_neg h3] at h ⊢
        by_cases h4 : a.condition = "below" ∧ price < a.threshold
        · rw [if_pos h4]
          exact ⟨hnt, rfl⟩
        · rw [if_neg h4] at h
          simp at h
    · rw [if_neg h2] at h
      simp at h

/-- The position-`i` entry after a check is the checked position-`i` entry. -/
lemma step_alerts_get (now : String) (alerts : List Alert) (t : Tick) (i : ℕ) :
    (step_alerts now alerts t)[i]? =
      alerts[i]?.map (fun a => (check_one now t.symbol t.price a).1) := by
  unfold step_alerts check_price_alert
  exact List.getElem?_map _ _ _

/-- An out-of-range position never fires across any tick sequence. -/
lemma fire_count_of_none (now : String) (ticks : List Tick) :
    ∀ alerts : List Alert, ∀ i : ℕ, alerts[i]? = none →
      fire_count now alerts ticks i = 0 := by
  induction ticks with
  | nil => intro alerts i _; rfl
  | cons t ts ih =>
    intro alerts i hnone
    have hf : fires_at now alerts t i = false := by
      simp [fires_at, hnone]
    have hstep : (step_alerts now alerts t)[i]? = none := by
      rw [step_alerts_get, hnone]; rfl
    unfold fire_count
    rw [hf, if_neg (by simp), Nat.zero_add]
    exact ih _ i hstep

/-- A triggered alert never fires again across any tick sequence, and is
carried through every later check unchanged. -/
lemma fire_count_of_triggered (now : String) (ticks : List Tick) :
    ∀ alerts : List Alert, ∀ i : ℕ, ∀ a : Alert, alerts[i]? = some a →
      a.triggered = true → fire_count now alerts ticks i = 0 := by
  induction ticks with
  | nil => intro alerts i a _ _; rfl
  | cons t ts ih =>
    intro alerts i a hget htrig
    have hskip : check_one now t.symbol t.price a = (a, false) :=
      check_one_of_triggered _ _ _ _ htrig
    have hf : fires_at now alerts t i = false := by
      simp [fires_at, hget, hskip]
    have hstep : (step_alerts now alerts t)[i]? = some a := by
      rw [step_alerts_get, hget]
      simp [hskip]
    unfold fire_count
    rw [hf, if_neg (by simp), Nat.zero_add]
    exact ih _ i a hstep htrig

/-- Claim C6: across any sequence of tick checks, the alert at any position
fires at most once; an already-triggered alert never fires and is passed
through each check unchanged (it is excluded from evaluation until it is
explicitly removed and re-created). -/
theorem alert_fires_at_most_once (now : String) (alerts : List Alert)
    (ticks : List Tick) (i : ℕ) :
    fire_count now alerts ticks i ≤ 1 ∧
      (∀ a : Alert, alerts[i]? = some a → a.triggered = true →
        fire_count now alerts ticks i = 0 ∧
          ∀ t : Tick, (step_alerts now alerts t)[i]? = some a) := by
  constructor
  · induction ticks generalizing alerts with
    | nil => simp [fire_count]
    | cons t ts ih =>
      unfold fire_count
      by_cases hf : fires_at now alerts t i = true
      · rw [if_pos hf]
        unfold fires_at at hf
        rcases hget : alerts[i]? with _ | a
        · rw [hget] at hf; simp at hf
        · rw [hget] at hf
          have hafter : (step_alerts now alerts t)[i]? =
              some (check_one now t.symbol t.price a).1 := by
            rw [step_alerts_get, hget]; rfl
          have htrig : (check_one now t.symbol t.price a).1.triggered = true :=
            (check_one_fired now t.symbol t.price a hf).2
          have h0 := fire_count_of_triggered now ts _ i _ hafter htrig
          omega
      · rw [if_neg hf]
        simpa using ih (step_alerts now alerts t)
  · intro a hget htrig
    refine ⟨fire_count_of_triggered now ticks alerts i a hget htrig, ?_⟩
    intro t
    rw [step_alerts_get, hget]
    simp [check_one_of_triggered now t.symbol t.price a htrig]

/-- Concrete instance of `alert_fires_at_most_once`, matching the spec
scenario: an `above 100` alert on symbol `x` checked against ticks at prices
101 then 102 fires exactly once (the count-1 evaluation is by `decide`, the
at-most-once bound and the no-refire fact come from the theorem). -/
theorem alert_fires_at_most_once_witness :
    fire_count "t0"
        [⟨1, "a", "above", "x", 100, true, false, "t0", none, none⟩]
        [⟨"x", 0, 101, 1⟩, ⟨"x", 1, 102, 1⟩] 0 = 1 ∧
      fire_count "t0"
        [⟨1, "a", "above", "x", 100, true, false, "t0", none, none⟩]
        [⟨"x", 0, 101, 1⟩, ⟨"x", 1, 102, 1⟩] 0 ≤ 1 ∧
      fire_count "t0"
        [⟨1, "a", "above", "x", 100, true, true, "t0", none, none⟩]
        [⟨"x", 0, 101, 1⟩, ⟨"x", 1, 102, 1⟩] 0 = 0 :=
  ⟨by decide,
   (alert_fires_at_most_once "t0"
      [⟨1, "a", "above", "x", 100, true, false, "t0", none, none⟩]
      [⟨"x", 0, 101, 1⟩, ⟨"x", 1, 102, 1⟩] 0).1,
   ((alert_fires_at_most_once "t0"
      [⟨1, "a", "above", "x", 100, true, true, "t0", none, none⟩]
      [⟨"x", 0, 101, 1⟩, ⟨"x", 1, 102, 1⟩] 0).2
      ⟨1, "a", "above", "x", 100, true, true, "t0", none, none⟩ rfl rfl).1⟩

/-- `AlertService.create_alert` (src/services/alert_service.py lines 15-27):
the new alert takes id `len(self.alerts) + 1` and is appended to the list.
Returns the new state and the created alert. -/
def create_alert (st : List Alert) (now name condition symbol : String)
    (threshold : ℚ) : List Alert × Alert :=
  let a : Alert :=
    { id := st.length + 1, name := name, condition := condition,
      symbol := symbol, threshold := threshold, is_active := true,
      triggered := false, created_at := now, triggered_at := none,
      triggered_price := none }
  (st ++ [a], a)

/-- `AlertService.remove_alert` (src/services/alert_service.py lines 29-30):
keep every alert whose id differs from the given one. -/
def remove_alert (st : List Alert) (alert_id : ℕ) : List Alert :=
  st.filter (fun a => a.id ≠ alert_id)

/-- The alert-service state after the call sequence
create A, create B, remove id 1, create C (all on symbol `x`). -/
def collisionState : List Alert :=
  (create_alert
    (remove_alert
      (create_alert (create_alert [] "t" "A" "above" "x" 1).1
        "t" "B" "above" "x" 1).1
      1)
    "t" "C" "above" "x" 1).1

/-- Claim C10: `create_alert` assigns id `len(alerts) + 1` and appends;
`remove_alert` deletes every alert carrying the given id.  Consequently the
sequence create A, create B, remove 1, create C leaves two distinct live
alerts that both carry id 2, and the single call `remove_alert 2` then
deletes both of them. -/
theorem create_alert_id_collision :
    (∀ (st : List Alert) (now name condition symbol : String) (thr : ℚ),
      (create_alert st now name condition symbol thr).2.id = st.length + 1 ∧
        (create_alert st now name condition symbol thr).1 =
          st ++ [(create_alert st now name condition symbol thr).2]) ∧
    (∀ (st : List Alert) (alert_id : ℕ),
      remove_alert st alert_id = st.filter (fun a => a.id ≠ alert_id)) ∧
    collisionState.map (fun a => (a.id, a.name)) = [(2, "B"), (2, "C")] ∧
    remove_alert collisionState 2 = [] := by
  refine ⟨fun st now name condition symbol thr => ⟨rfl, rfl⟩,
          fun st alert_id => rfl, ?_, ?_⟩
  · decide
  · decide

/-- Arithmetic mean of a rational list (`np.mean`; the empty case, NaN in
numpy, is guarded at every use site). -/
def listMean (xs : List ℚ) : ℚ := xs.sum / xs.length

/-- Population variance, ddof = 0 (the square of `np.std`). -/
def popVar (xs : List ℚ) : ℚ :=
  (xs.map (fun x => (x - listMean xs) ^ 2)).sum / xs.length

/-- Population standard deviation (`np.std`, ddof = 0). -/
noncomputable def popStd (xs : List ℚ) : ℝ := Real.sqrt (popVar xs)

/-- Sample variance, ddof = 1 (the default of `pandas.Series.std` and
`rolling(...).std()`); the one-element case, NaN in pandas, is guarded at
every use site. -/
def sampleVar (xs : List ℚ) : ℚ :=
  (xs.map (fun x => (x - listMean xs) ^ 2)).sum / ((xs.length : ℚ) - 1)

/-- One resampled row: the OHLC price columns that a given aggregation route
emits (`none` for a column the route does not produce) together with the
close and volume columns, which every route produces. -/
structure Bar where
  opn : Option ℚ
  high : Option ℚ
  low : Option ℚ
  close : ℚ
  volume : ℚ
deriving DecidableEq, Repr

/-- The bucket start `floor(timestamp, interval)` that pandas assigns a tick
to when resampling with a rule of `iv` seconds. -/
def bucketStart (iv : ℚ) (ts : ℚ) : ℚ := iv * (⌊ts / iv⌋ : ℤ)

/-- The distinct non-empty bucket starts of a tick series in ascending order:
the index of a pandas resample result after `dropna` has removed the empty
buckets. -/
def bucketStarts (iv : ℚ) (ticks : List Tick) : List ℚ :=
  List.insertionSort (· ≤ ·)
    ((ticks.map (fun t => bucketStart iv t.timestamp)).dedup)

/-- The ticks falling into one bucket, in input (time-index) order. -/
def bucketTicks (iv : ℚ) (ticks : List Tick) (b : ℚ) : List Tick :=
  ticks.filter (fun t => bucketStart iv t.timestamp = b)

/-- First price of a bucket (pandas `first`). -/
def firstPrice (ts : List Tick) : ℚ := (ts.map Tick.price).headD 0

/-- Last price of a bucket (pandas `last`). -/
def lastPrice (ts : List Tick) : ℚ := (ts.map Tick.price).getLastD 0

/-- Highest price of a bucket (pandas `max`). -/
def maxPrice (ts : List Tick) : ℚ :=
  match ts.map Tick.price with
  | [] => 0
  | p :: ps => ps.foldl max p

/-- Lowest price of a bucket (pandas `min`). -/
def minPrice (ts : List Tick) : ℚ :=
  match ts.map Tick.price with
  | [] => 0
  | p :: ps => ps.foldl min p

/-- Summed sizes of a bucket (`df['size'].resample(rule).sum()`). -/
def sumSize (ts : List Tick) : ℚ := (ts.map Tick.size).sum

/-- Per-bucket aggregation of `Series.resample(rule).ohlc()` — the route both
files take for 10 or more input ticks: open = first, high = max, low = min,
close = last, joined with the summed volume column. -/
def pandasOhlc (ts : List Tick) : Bar :=
  { opn := some (firstPrice ts), high := some (maxPrice ts),
    low := some (minPrice ts), close := lastPrice ts, volume := sumSize ts }

namespace Svc

/-- The services small-count route (src/services/analytics.py lines 30-38):
`df['price'].resample(rule).agg({'open': 'first', 'high': 'max',
'low': 'min', 'close': 'last'})` merged with the summed volume column. -/
def aggFirstMaxMinLast (ts : List Tick) : Bar :=
  { opn := some (firstPrice ts), high := some (maxPrice ts),
    low := some (minPrice ts), close := lastPrice ts, volume := sumSize ts }

/-- `QuantitativeAnalytics.resample_ticks` of src/services/analytics.py
(lines 12-50): fewer than 5 ticks → empty frame; fewer than 10 ticks → the
`agg` route per bucket, otherwise the `ohlc()` route; empty buckets are
dropped by `dropna`.  `iv` is the parsed resample rule in seconds (a parse
failure raises and is caught, returning the empty frame — not modelled since
every claim uses a well-formed interval). -/
def resample_ticks (ticks : List Tick) (iv : ℚ) : List (ℚ × Bar) :=
  if ticks.length < 5 then []
  else
    (bucketStarts iv ticks).map (fun b =>
      (b, if ticks.length < 10 then aggFirstMaxMinLast (bucketTicks iv ticks b)
          else pandasOhlc (bucketTicks iv ticks b)))

end Svc

namespace App

/-- The app small-count route (src/app.py lines 167-169):
`df['price'].resample(interval).last().to_frame('close')` — a single close
column (no open/high/low is emitted), plus the summed volume column. -/
def lastOnly (ts : List Tick) : Bar :=
  { opn := none, high := none, low := none,
    close := lastPrice ts, volume := sumSize ts }

/-- `QuantitativeAnalytics.resample_ticks` of src/app.py (lines 158-181):
fewer than 5 ticks → empty frame; fewer than 10 ticks → the close-only
route per bucket, otherwise the `ohlc()` route; empty buckets dropped. -/
def resample_ticks (ticks : List Tick) (iv : ℚ) : List (ℚ × Bar) :=
  if ticks.length < 5 then []
  else
    (bucketStarts iv ticks).map (fun b =>
      (b, if ticks.length < 10 then lastOnly (bucketTicks iv ticks b)
          else pandasOhlc (bucketTicks iv ticks b)))

end App
/-- Claim C7 (the code violates it): in src/app.py the small-count resampling
route emits bars with no open/high/low columns at all, so it cannot produce
the same bars as the general OHLC aggregation.  On five one-bucket ticks with
prices 100, 102, 101, 99, 100 the small route yields only close = 100 and
volume = 5, while the general aggregation of the very same bucket contents
yields open 100, high 102, low 99, close 100, volume 5.  The two routes of
src/services/analytics.py do agree (first conjunct). -/
theorem app_small_route_drops_ohlc :
    (∀ b : List Tick, Svc.aggFirstMaxMinLast b = pandasOhlc b) ∧
    App.resample_ticks
        [⟨"x", 0, 100, 1⟩, ⟨"x", 0, 102, 1⟩, ⟨"x", 0, 101, 1⟩,
         ⟨"x", 0, 99, 1⟩, ⟨"x", 0, 100, 1⟩] 60 =
      [(0, ⟨none, none, none, 100, 5⟩)] ∧
    pandasOhlc
        [⟨"x", 0, 100, 1⟩, ⟨"x", 0, 102, 1⟩, ⟨"x", 0, 101, 1⟩,
         ⟨"x", 0, 99, 1⟩, ⟨"x", 0, 100, 1⟩] =
      ⟨some 100, some 102, some 99, 100, 5⟩ ∧
    App.lastOnly
        [⟨"x", 0, 100, 1⟩, ⟨"x", 0, 102, 1⟩, ⟨"x", 0, 101, 1⟩,
         ⟨"x", 0, 99, 1⟩, ⟨"x", 0, 100, 1⟩] ≠
      pandasOhlc
        [⟨"x", 0, 100, 1⟩, ⟨"x", 0, 102, 1⟩, ⟨"x", 0, 101, 1⟩,
         ⟨"x", 0, 99, 1⟩, ⟨"x", 0, 100, 1⟩] := by
  refine ⟨fun b => rfl, ?_, ?_, ?_⟩
  · have hmap : ([⟨"x", 0, 100, 1⟩, ⟨"x", 0, 102, 1⟩, ⟨"x", 0, 101, 1⟩,
        ⟨"x", 0, 99, 1⟩, ⟨"x", 0, 100, 1⟩] : List Tick).map
          (fun t => bucketStart 60 t.timestamp) = [0, 0, 0, 0, 0] := by
      norm_num [bucketStart]
    have hbs : bucketStarts 60
        [⟨"x", 0, 100, 1⟩, ⟨"x", 0, 102, 1⟩, ⟨"x", 0, 101, 1⟩,
         ⟨"x", 0, 99, 1⟩, ⟨"x", 0, 100, 1⟩] = [0] := by
      unfold bucketStarts
      rw [hmap]
      decide
    have hbt : bucketTicks 60
        [⟨"x", 0, 100, 1⟩, ⟨"x", 0, 102, 1⟩, ⟨"x", 0, 101, 1⟩,
         ⟨"x", 0, 99, 1⟩, ⟨"x", 0, 100, 1⟩] 0 =
        [⟨"x", 0, 100, 1⟩, ⟨"x", 0, 102, 1⟩, ⟨"x", 0, 101, 1⟩,
         ⟨"x", 0, 99, 1⟩, ⟨"x", 0, 100, 1⟩] := by
      norm_num [bucketTicks, bucketStart, List.filter_cons]
    unfold App.resample_ticks
    rw [if_neg (by norm_num), hbs, List.map_cons, List.map_nil,
        if_pos (by norm_num), hbt]
    norm_num [App.lastOnly, lastPrice, sumSize]
  · norm_num [pandasOhlc, firstPrice, maxPrice, minPrice, lastPrice, sumSize]
  · intro h
    have := congrArg Bar.opn h
    simp [App.lastOnly, pandasOhlc] at this
/-- Claim C8 fails on the code: the concrete well-formed feed trade message
(symbol BTCUSDT, price 50000, quantity 0.5, event time 1000000 ms)
normalizes to a single tick, and resampling that one-element tick series
returns the empty bar series (both resamplers bail out below 5 ticks), not a
one-bar series with open = high = low = close = price. -/
theorem single_tick_roundtrip_counterexample :
    normalize_tick ⟨some "trade", some "BTCUSDT", some 1000000,
        .num 50000, .num (1/2)⟩ = .ok ⟨"btcusdt", 1000, 50000, 1/2⟩ ∧
    App.resample_ticks [⟨"btcusdt", 1000, 50000, 1/2⟩] 60 = [] ∧
    Svc.resample_ticks [⟨"btcusdt", 1000, 50000, 1/2⟩] 60 = [] := by
  refine ⟨?_, ?_, ?_⟩
  · show Except.ok ⟨strToLower "BTCUSDT", ((1000000 : ℤ) : ℚ) / 1000, 50000, 1/2⟩ =
      Except.ok (⟨"btcusdt", 1000, 50000, 1/2⟩ : Tick)
    have h1 : strToLower "BTCUSDT" = "btcusdt" := by decide
    have h2 : ((1000000 : ℤ) : ℚ) / 1000 = 1000 := by norm_num
    rw [h1, h2]
  · unfold App.resample_ticks
    rw [if_pos (by norm_num)]
  · unfold Svc.resample_ticks
    rw [if_pos (by norm_num)]

/-- Claim C8 (amended): normalizing any well-formed feed trade message and
resampling the resulting one-element tick series with any interval yields the
empty bar series — both resamplers return no bars for fewer than 5 ticks —
rather than a one-bar series. -/
theorem single_tick_resamples_empty (d : RawMsg) (t : Tick) (iv : ℚ)
    (_h : normalize_tick d = .ok t) :
    App.resample_ticks [t] iv = [] ∧ Svc.resample_ticks [t] iv = [] := by
  constructor
  · unfold App.resample_ticks
    rw [if_pos (by norm_num)]
  · unfold Svc.resample_ticks
    rw [if_pos (by norm_num)]

/-- Concrete instance of `single_tick_resamples_empty`: the trade message
(symbol ETHUSDT, event time 2000 ms, price 3, quantity 1). -/
theorem single_tick_resamples_empty_witness :
    App.resample_ticks [⟨"ethusdt", 2, 3, 1⟩] 60 = [] ∧
      Svc.resample_ticks [⟨"ethusdt", 2, 3, 1⟩] 60 = [] :=
  single_tick_resamples_empty
    ⟨some "trade", some "ETHUSDT", some 2000, .num 3, .num 1⟩
    ⟨"ethusdt", 2, 3, 1⟩ 60
    (by
      show Except.ok ⟨strToLower "ETHUSDT", ((2000 : ℤ) : ℚ) / 1000, 3, 1⟩ =
        Except.ok (⟨"ethusdt", 2, 3, 1⟩ : Tick)
      have h1 : strToLower "ETHUSDT" = "ethusdt" := by decide
      have h2 : ((2000 : ℤ) : ℚ) / 1000 = 2 := by norm_num
      rw [h1, h2])
/-- The scalar result of the app z-score computation. -/
structure ZScoreResult where
  current_zscore : ℝ
  mean : ℝ
  std : ℝ

/-- Population variance is a mean of squares, hence nonnegative. -/
lemma popVar_nonneg (xs : List ℚ) : 0 ≤ popVar xs := by
  unfold popVar
  apply div_nonneg
  · apply List.sum_nonneg
    intro x hx
    simp only [List.mem_map] at hx
    obtain ⟨y, _, rfl⟩ := hx
    positivity
  · positivity

/-- The population standard deviation vanishes exactly when the population
variance does. -/
lemma popStd_eq_zero_iff (xs : List ℚ) : popStd xs = 0 ↔ popVar xs = 0 := by
  unfold popStd
  rw [Real.sqrt_eq_zero (by exact_mod_cast popVar_nonneg xs)]
  exact_mod_cast Iff.rfl

namespace App

/-- `QuantitativeAnalytics.calculate_spread_zscore` of src/app.py (lines
295-335).  For fewer than 5 points the code returns `random.uniform(-1, 1)`
as the z-score; that draw is threaded in as `rand`.  Then the window is
clamped to the series length; a clamped window below 2 yields z-score 0 with
whole-series statistics; otherwise the trailing `window` values give the
population mean/std and `zscore = (last - mean)/std`, 0 when `std == 0`.
The `try` body cannot raise, so the second random fallback (lines 329-335)
is dead code and is not modelled. -/
noncomputable def calculate_spread_zscore (rand : ℝ) (s : List ℚ) (w : ℕ) :
    ZScoreResult :=
  if s.length < 5 then ⟨rand, 0, 1⟩
  else
    let w2 := if s.length < w then s.length else w
    if w2 < 2 then
      ⟨0, if 0 < s.length then ((listMean s : ℚ) : ℝ) else 0,
          if 0 < s.length then popStd s else 1⟩
    else
      let recent := s.drop (s.length - w2)
      let m := listMean recent
      let sd := popStd recent
      ⟨if sd = 0 then 0 else ((s.getLastD 0 - m : ℚ) : ℝ) / sd,
       (m : ℝ), sd⟩

end App

/-- The result of the services z-score computation; `zscore_series` is the
rolling z-score series after `dropna`. -/
structure SvcZScoreResult where
  current_zscore : ℝ
  zscore_series : List ℝ
  mean : ℝ
  std : ℝ

/-- The `k` values ending at position `i`: the window a pandas rolling
statistic sees at row `i`. -/
def windowEnd (s : List ℚ) (k i : ℕ) : List ℚ := (s.take (i + 1)).drop (i + 1 - k)

namespace Svc

/-- The rolling z-score `(s - rolling_mean) / rolling_std` at row `i` with
window `k` under pandas semantics (sample std, ddof = 1).  `none` is NaN:
fewer than `k` observations, `k = 1` (sample std of a single point), or a
constant window (std 0 makes the quotient 0/0). -/
noncomputable def rollingZscoreAt (s : List ℚ) (k i : ℕ) : Option ℝ :=
  if i + 1 < k ∨ k ≤ 1 then none
  else
    let win := windowEnd s k i
    if sampleVar win = 0 then none
    else some (((s.getD i 0 - listMean win : ℚ) : ℝ) / Real.sqrt (sampleVar win))

/-- `QuantitativeAnalytics.calculate_spread_zscore` of
src/services/analytics.py (lines 138-166): a series shorter than the window
or shorter than 5 returns the zero result (std 0, not 1); otherwise rolling
mean, rolling sample std (pandas ddof = 1) and rolling z-score with window
`min(window, len)`, reporting the last row of each (`isna` maps NaN to 0)
and the z-score series after `dropna`.  The `try` body cannot raise on these
inputs. -/
noncomputable def calculate_spread_zscore (s : List ℚ) (w : ℕ) : SvcZScoreResult :=
  if s.length < w ∨ s.length < 5 then ⟨0, [], 0, 0⟩
  else
    let k := min w s.length
    let trailing := s.drop (s.length - k)
    ⟨(rollingZscoreAt s k (s.length - 1)).getD 0,
     (List.range s.length).filterMap (rollingZscoreAt s k),
     ((listMean trailing : ℚ) : ℝ),
     if k ≤ 1 then 0 else Real.sqrt (sampleVar trailing)⟩

end Svc

/-- Claim C4 fails on the code: on the 3-point series the app implementation
returns the random draw itself as the z-score — two different draws give two
different outputs, so the result is neither 0 nor deterministic — and the
services implementation returns std = 0 where the claim requires std = 1. -/
theorem zscore_short_series_not_neutral :
    (App.calculate_spread_zscore 0 [1, 2, 4] 20).current_zscore = 0 ∧
    (App.calculate_spread_zscore (1/2) [1, 2, 4] 20).current_zscore = 1/2 ∧
    Svc.calculate_spread_zscore [1, 2, 4] 20 = ⟨0, [], 0, 0⟩ := by
  refine ⟨rfl, rfl, ?_⟩
  unfold Svc.calculate_spread_zscore
  rw [if_pos (by norm_num)]
/-- Claim C5 fails on the services implementation: on [1,1,1,1,1,10] with
window 5 it reports the trailing sample standard deviation sqrt(81/5)
(ddof = 1), which is not the population standard deviation 18/5 of the
trailing 5 values that the claim requires. -/
theorem zscore_sample_std_counterexample :
    (Svc.calculate_spread_zscore [1, 1, 1, 1, 1, 10] 5).std =
        Real.sqrt ((81 : ℝ) / 5) ∧
      Real.sqrt ((81 : ℝ) / 5) ≠ 18 / 5 := by
  constructor
  · have hsv : sampleVar [1, 1, 1, 1, 10] = 81 / 5 := by
      norm_num [sampleVar, listMean]
    unfold Svc.calculate_spread_zscore
    rw [if_neg (by norm_num)]
    have hk : min 5 ([1, 1, 1, 1, 1, 10] : List ℚ).length = 5 := by norm_num
    simp only [hk]
    rw [if_neg (by norm_num)]
    norm_num
    rw [hsv, show ((81 / 5 : ℚ) : ℝ) = 81 / 5 by norm_num,
        Real.sqrt_div (by norm_num) 5]
  · intro h
    have h2 : ((81 : ℝ) / 5) = (18 / 5) ^ 2 := by
      rw [← Real.sq_sqrt (by norm_num : (0:ℝ) ≤ 81/5), h]
    norm_num at h2
/-- Claim C5 (amended): the app implementation behaves exactly as claimed —
for a series of at least 5 points and an effective window
min(window, len) of at least 2, `calculate_spread_zscore` reports the mean
and the population standard deviation (ddof = 0) of the trailing
min(window, len) values, with z-score (last − mean)/std, or 0 when the std
is 0, independently of the random draw.  The services implementation reports
the same trailing mean but the trailing sample standard deviation
(ddof = 1) instead. -/
theorem zscore_window_stats :
    (∀ (rand : ℝ) (s : List ℚ) (w : ℕ), 5 ≤ s.length → 2 ≤ min w s.length →
      (App.calculate_spread_zscore rand s w).mean =
          ((listMean (s.drop (s.length - min w s.length)) : ℚ) : ℝ) ∧
        (App.calculate_spread_zscore rand s w).std =
          Real.sqrt ((popVar (s.drop (s.length - min w s.length)) : ℚ) : ℝ) ∧
        (popVar (s.drop (s.length - min w s.length)) = 0 →
          (App.calculate_spread_zscore rand s w).current_zscore = 0) ∧
        (popVar (s.drop (s.length - min w s.length)) ≠ 0 →
          (App.calculate_spread_zscore rand s w).current_zscore =
            ((s.getLastD 0 - listMean (s.drop (s.length - min w s.length)) : ℚ) : ℝ) /
              Real.sqrt ((popVar (s.drop (s.length - min w s.length)) : ℚ) : ℝ))) ∧
    (∀ (s : List ℚ) (w : ℕ), 5 ≤ s.length → w ≤ s.length → 2 ≤ w →
      (Svc.calculate_spread_zscore s w).mean =
          ((listMean (s.drop (s.length - w)) : ℚ) : ℝ) ∧
        (Svc.calculate_spread_zscore s w).std =
          Real.sqrt ((sampleVar (s.drop (s.length - w)) : ℚ) : ℝ)) := by
  constructor
  · intro rand s w h5 h2
    have hw2 : (if s.length < w then s.length else w) = min w s.length := by
      split <;> omega
    unfold App.calculate_spread_zscore
    rw [if_neg (by omega)]
    simp only [hw2]
    rw [if_neg (by omega)]
    refine ⟨rfl, rfl, ?_, ?_⟩
    · intro hv
      have hsd : popStd (s.drop (s.length - min w s.length)) = 0 :=
        (popStd_eq_zero_iff _).mpr hv
      rw [if_pos hsd]
    · intro hv
      have hsd : ¬ popStd (s.drop (s.length - min w s.length)) = 0 :=
        fun hc => hv ((popStd_eq_zero_iff _).mp hc)
      rw [if_neg hsd]
      rfl
  · intro s w h5 hw h2
    have hk : min w s.length = w := Nat.min_eq_left hw
    unfold Svc.calculate_spread_zscore
    rw [if_neg (by omega)]
    simp only [hk, eq_self_iff_true, true_and]
    rw [if_neg (by omega : ¬ w ≤ 1)]

/-- Concrete instance of `zscore_window_stats`: on [1,1,1,1,1,10] with window
5 the app implementation returns mean 14/5, std 18/5 and z-score 2 (the
statistics of the trailing 5 values), and the services implementation
returns std sqrt(81/5). -/
theorem zscore_window_stats_witness :
    (App.calculate_spread_zscore 0 [1, 1, 1, 1, 1, 10] 5).mean = 14 / 5 ∧
      (App.calculate_spread_zscore 0 [1, 1, 1, 1, 1, 10] 5).std = 18 / 5 ∧
      (App.calculate_spread_zscore 0 [1, 1, 1, 1, 1, 10] 5).current_zscore = 2 ∧
      (Svc.calculate_spread_zscore [1, 1, 1, 1, 1, 10] 5).std =
        Real.sqrt ((81 : ℝ) / 5) := by
  obtain ⟨happ, hsvc⟩ := zscore_window_stats
  obtain ⟨hm, hs, _, hz⟩ := happ 0 [1, 1, 1, 1, 1, 10] 5 (by norm_num) (by norm_num)
  obtain ⟨_, hss⟩ := hsvc [1, 1, 1, 1, 1, 10] 5 (by norm_num) (by norm_num) (by norm_num)
  have hdrop : (([1, 1, 1, 1, 1, 10] : List ℚ).drop
      (([1, 1, 1, 1, 1, 10] : List ℚ).length - min 5 ([1, 1, 1, 1, 1, 10] : List ℚ).length)) =
      [1, 1, 1, 1, 10] := by norm_num
  have hmean : listMean [1, 1, 1, 1, 10] = 14 / 5 := by norm_num [listMean]
  have hvar : popVar [1, 1, 1, 1, 10] = 324 / 25 := by
    norm_num [popVar, listMean]
  have hsqrt : Real.sqrt ((324 : ℝ) / 25) = 18 / 5 := by
    rw [show (324 / 25 : ℝ) = (18 / 5) ^ 2 by norm_num,
        Real.sqrt_sq (by norm_num)]
  refine ⟨?_, ?_, ?_, ?_⟩
  · rw [hm, hdrop, hmean]; norm_num
  · rw [hs, hdrop, hvar]
    rw [show ((324 / 25 : ℚ) : ℝ) = 324 / 25 by norm_num, hsqrt]
  · rw [hz (by rw [hdrop, hvar]; norm_num), hdrop, hvar, hmean]
    rw [show ((324 / 25 : ℚ) : ℝ) = 324 / 25 by norm_num, hsqrt]
    norm_num [List.getLastD]
  · rw [hss]
    have hdrop2 : (([1, 1, 1, 1, 1, 10] : List ℚ).drop
        (([1, 1, 1, 1, 1, 10] : List ℚ).length - 5)) = [1, 1, 1, 1, 10] := by norm_num
    rw [hdrop2, show sampleVar [1, 1, 1, 1, 10] = 81 / 5 by norm_num [sampleVar, listMean]]
    norm_num
/-- The fields of an app regression result.  The success path emits an
`intercept` key; every fallback dict omits it, hence the `Option`. -/
structure RegressionResult where
  hedge_ratio : ℚ
  intercept : Option ℚ
  r_squared : ℚ
  current_spread : ℚ
  spread_mean : ℚ
  spread_std : ℝ

/-- The hand-rolled regression denominator `n * sum_x2 - sum_x * sum_x`
(src/app.py lines 249-255). -/
def regDenominator (X : List ℚ) : ℚ :=
  (X.length : ℚ) * (X.map (fun a => a * a)).sum - X.sum * X.sum

namespace App

/-- The low-confidence sentinel the app regression returns when some data is
present but too little of it (src/app.py lines 213-220 and duplicates):
hedge_ratio 1.2, r_squared 0.75, current_spread 0.5, spread_mean 0,
spread_std 1, and no intercept key. -/
noncomputable def sentinelLowConfidence : RegressionResult :=
  { hedge_ratio := 6/5, intercept := none, r_squared := 3/4,
    current_spread := 1/2, spread_mean := 0, spread_std := 1 }

/-- The degenerate-denominator fallback (src/app.py lines 256-263):
hedge_ratio 1.0, r_squared 0.5, current_spread 0, spread_mean 0,
spread_std 1, and no intercept key. -/
noncomputable def fallbackDegenerate : RegressionResult :=
  { hedge_ratio := 1, intercept := none, r_squared := 1/2,
    current_spread := 0, spread_mean := 0, spread_std := 1 }

/-- The regression core of `QuantitativeAnalytics.pairwise_regression` of
src/app.py (lines 213-283), applied to the joined close-price columns `X`
(symbol 1) and `y` (symbol 2) of the merged frame.  Fewer than 3 merged rows
— and the then-unreachable `len(X) < 2` re-check — return the low-confidence
sentinel; a zero denominator returns the degenerate fallback; otherwise the
closed-form least-squares slope and intercept, r² = 1 - ss_res/ss_tot (0
when ss_tot = 0), and the statistics of the spread `y - slope*X`. -/
noncomputable def pairwise_regression_core (X y : List ℚ) : RegressionResult :=
  if X.length < 3 then sentinelLowConfidence
  else if X.length < 2 then sentinelLowConfidence
  else if regDenominator X = 0 then fallbackDegenerate
  else
    let n : ℚ := X.length
    let sum_x := X.sum
    let sum_y := y.sum
    let sum_xy := (List.zipWith (fun a b => a * b) X y).sum
    let slope := (n * sum_xy - sum_x * sum_y) / regDenominator X
    let intercept := (sum_y - slope * sum_x) / n
    let y_pred := X.map (fun a => slope * a + intercept)
    let ss_res := (List.zipWith (fun b c => (b - c) ^ 2) y y_pred).sum
    let ss_tot := (y.map (fun b => (b - listMean y) ^ 2)).sum
    let r2 := if ss_tot ≠ 0 then 1 - ss_res / ss_tot else 0
    let spread := List.zipWith (fun b a => b - slope * a) y X
    { hedge_ratio := slope, intercept := some intercept, r_squared := r2,
      current_spread := if 0 < spread.length then spread.getLastD 0 else 0,
      spread_mean := if 0 < spread.length then listMean spread else 0,
      spread_std := if 0 < spread.length then popStd spread else 1 }

end App

/-- Claim C3 fails on the code: two joined points with a constant price1
column ([5, 5] against [1, 2]) have regression denominator exactly 0, yet
the code hits the `len(merged) < 3` guard first and returns the
low-confidence sentinel with hedge_ratio 1.2, not the degenerate fallback
with hedge_ratio 1.0 that the claim requires. -/
theorem regression_short_input_counterexample :
    regDenominator [5, 5] = 0 ∧
      (App.pairwise_regression_core [5, 5] [1, 2]).hedge_ratio = 6/5 ∧
      (6 : ℚ)/5 ≠ 1 := by
  refine ⟨by norm_num [regDenominator], rfl, by norm_num⟩

/-- Claim C3 (amended): with fewer than 3 joined points the app regression
returns the low-confidence sentinel {hedge_ratio 1.2, r_squared 0.75,
current_spread 0.5, spread_mean 0, spread_std 1}; with at least 3 joined
points and regression denominator exactly 0 it returns the degenerate
fallback {1.0, 0.5, 0, 0, 1}; and a constant price1 column always has
denominator exactly 0. -/
theorem regression_degenerate_fallback (X y : List ℚ) :
    (X.length < 3 → App.pairwise_regression_core X y = App.sentinelLowConfidence) ∧
    (3 ≤ X.length → regDenominator X = 0 →
      App.pairwise_regression_core X y = App.fallbackDegenerate) ∧
    (∀ c : ℚ, (∀ x ∈ X, x = c) → regDenominator X = 0) := by
  refine ⟨?_, ?_, ?_⟩
  · intro h
    unfold App.pairwise_regression_core
    rw [if_pos h]
  · intro h3 hden
    unfold App.pairwise_regression_core
    rw [if_neg (by omega), if_neg (by omega), if_pos hden]
  · intro c hc
    unfold regDenominator
    have hsum : X.sum = (X.length : ℚ) * c := by
      rw [List.sum_eq_card_nsmul X c hc, nsmul_eq_mul]
    have hsum2 : (X.map (fun a => a * a)).sum = (X.length : ℚ) * (c * c) := by
      rw [List.sum_eq_card_nsmul (X.map (fun a => a * a)) (c * c) ?_]
      · rw [nsmul_eq_mul, List.length_map]
      · intro z hz
        simp only [List.mem_map] at hz
        obtain ⟨x, hx, rfl⟩ := hz
        rw [hc x hx]
    rw [hsum, hsum2]
    ring

/-- Concrete instance of `regression_degenerate_fallback`: two joined points
get the sentinel, three joined points with constant price1 get the
degenerate fallback. -/
theorem regression_degenerate_fallback_witness :
    App.pairwise_regression_core [5, 5] [1, 2] = App.sentinelLowConfidence ∧
      App.pairwise_regression_core [5, 5, 5] [1, 2, 3] = App.fallbackDegenerate :=
  ⟨(regression_degenerate_fallback [5, 5] [1, 2]).1 (by norm_num),
   (regression_degenerate_fallback [5, 5, 5] [1, 2, 3]).2.1 (by norm_num)
     ((regression_degenerate_fallback [5, 5, 5] [1, 2, 3]).2.2 5
       (by intro x hx; fin_cases hx <;> rfl))⟩
/-- The fitted-model values that `sm.OLS(y, add_constant(X)).fit()` exposes
(src/services/analytics.py lines 113-128).  The numerical fit lives outside
the rational fragment and is passed in abstractly; no claim depends on its
values. -/
structure OlsModel where
  params : List ℝ
  rsquared : ℝ
  f_pvalue : ℝ

/-- A services regression result (src/services/analytics.py lines 124-132). -/
structure SvcRegressionResult where
  hedge_ratio : ℝ
  intercept : ℝ
  r_squared : ℝ
  p_value : ℝ
  spread_mean : ℝ
  spread_std : ℝ
  current_spread : ℝ

/-- Mean of a real list (`np.mean`). -/
noncomputable def rMean (xs : List ℝ) : ℝ := xs.sum / xs.length

/-- Population standard deviation of a real list (`np.std`, ddof = 0). -/
noncomputable def rPopStd (xs : List ℝ) : ℝ :=
  Real.sqrt ((xs.map (fun x => (x - rMean xs) ^ 2)).sum / xs.length)

/-- Inner join of two resampled frames on the timestamp column
(`pd.merge(..., on='timestamp')`), preserving left order. -/
def mergeOnTimestamp (r1 r2 : List (ℚ × Bar)) : List (ℚ × Bar × Bar) :=
  r1.filterMap (fun p =>
    (r2.find? (fun q2 => decide (q2.1 = p.1))).map (fun q2 => (p.1, p.2, q2.2)))

namespace Svc

/-- `QuantitativeAnalytics.pairwise_regression` of src/services/analytics.py
(lines 85-136), over the two fetched tick frames; `ols` abstracts the
statsmodels fit.  Empty or sub-10-tick inputs, empty resamples and fewer
than 5 merged rows return `None`; the NaN and missing-close-column checks
cannot fire in the rational model (the services resampler always emits a
close column and rationals have no NaN); an empty `params` vector makes
`model.params[0]` raise, which the `except` also turns into `None`. -/
noncomputable def pairwise_regression (ols : List ℚ → List ℚ → OlsModel)
    (df1 df2 : List Tick) (iv : ℚ) : Option SvcRegressionResult :=
  if df1 = [] ∨ df2 = [] ∨ df1.length < 10 ∨ df2.length < 10 then none
  else
    let r1 := resample_ticks df1 iv
    let r2 := resample_ticks df2 iv
    if r1 = [] ∨ r2 = [] then none
    else
      let merged := mergeOnTimestamp r1 r2
      if merged.length < 5 then none
      else
        let X := merged.map (fun m => m.2.1.close)
        let y := merged.map (fun m => m.2.2.close)
        let model := ols X y
        match model.params with
        | [] => none
        | p0 :: _ =>
          let hedge : ℝ := if 1 < model.params.length then model.params.getD 1 0 else 0
          let spread := List.zipWith (fun b a => (b : ℝ) - hedge * (a : ℝ)) y X
          some { hedge_ratio := hedge, intercept := p0,
                 r_squared := model.rsquared, p_value := model.f_pvalue,
                 spread_mean := if 0 < spread.length then rMean spread else 0,
                 spread_std := if 0 < spread.length then rPopStd spread else 0,
                 current_spread := if 0 < spread.length then spread.getLastD 0 else 0 }

/-- A services rolling-correlation result (src/services/analytics.py lines
229-240). -/
structure SvcCorrResult where
  current_correlation : ℝ
  correlation_series : List ℝ
  mean_correlation : ℝ

/-- The rolling Pearson correlation at row `i` with window `k` (pandas
`rolling(k).corr`): `none` is NaN — fewer than `k` observations, a one-point
window, or a constant window on either side. -/
noncomputable def rollingCorrAt (X y : List ℚ) (k i : ℕ) : Option ℝ :=
  if i + 1 < k ∨ k ≤ 1 then none
  else
    let xs := windowEnd X k i
    let ys := windowEnd y k i
    if popVar xs = 0 ∨ popVar ys = 0 then none
    else
      some ((((List.zipWith
          (fun a b => (a - listMean xs) * (b - listMean ys)) xs ys).sum : ℚ) : ℝ) /
        (Real.sqrt (((xs.map (fun a => (a - listMean xs) ^ 2)).sum : ℚ) : ℝ) *
          Real.sqrt (((ys.map (fun b => (b - listMean ys) ^ 2)).sum : ℚ) : ℝ)))

/-- `QuantitativeAnalytics.rolling_correlation` of src/services/analytics.py
(lines 204-240): `None` for an empty input frame or empty resample; the zero
result when fewer than `window` merged rows (the missing-close-column arm of
that guard cannot fire — the resampler always emits close); otherwise the
rolling Pearson correlation of the merged close columns with window
`min(window, len)`: the last row (`isna` maps NaN to 0), the series after
`dropna`, and its mean (0 when every window was NaN). -/
noncomputable def rolling_correlation (df1 df2 : List Tick) (w : ℕ) (iv : ℚ) :
    Option SvcCorrResult :=
  if df1 = [] ∨ df2 = [] then none
  else
    let r1 := resample_ticks df1 iv
    let r2 := resample_ticks df2 iv
    if r1 = [] ∨ r2 = [] then none
    else
      let merged := mergeOnTimestamp r1 r2
      if merged.length < w then some ⟨0, [], 0⟩
      else
        let X := merged.map (fun m => m.2.1.close)
        let y := merged.map (fun m => m.2.2.close)
        let k := min w merged.length
        let series := (List.range merged.length).filterMap (rollingCorrAt X y k)
        some { current_correlation := (rollingCorrAt X y k (merged.length - 1)).getD 0,
               correlation_series := series,
               mean_correlation := if series.length = 0 then 0 else rMean series }

/-- The tuple positions of `adfuller` that `adf_test` reads: test statistic,
p-value, critical values at 1, 5 and 10 percent.  The test's numerics are
outside the rational fragment and are passed in abstractly. -/
structure AdfRaw where
  stat : ℝ
  pvalue : ℝ
  crit1 : ℝ
  crit5 : ℝ
  crit10 : ℝ

/-- A services ADF result (src/services/analytics.py lines 189-194). -/
structure AdfResult where
  test_statistic : ℝ
  p_value : ℝ
  crit1 : ℝ
  crit5 : ℝ
  crit10 : ℝ
  is_stationary : Bool

/-- `QuantitativeAnalytics.adf_test` of src/services/analytics.py (lines
168-202): fewer than 10 points → the fixed fallback (statistic 0, p-value 1,
zero critical values, not stationary); the post-`dropna` length re-check is
identical in the rational model (no NaN entries exist); otherwise the
`adfuller` output with `is_stationary = (p_value <= 0.05)`.  An exception
inside `adfuller` would return the same fallback (not modelled: `f` is
total). -/
noncomputable def adf_test (f : List ℚ → AdfRaw) (s : List ℚ) : AdfResult :=
  if s.length < 10 then ⟨0, 1, 0, 0, 0, false⟩
  else if s.length < 10 then ⟨0, 1, 0, 0, 0, false⟩
  else
    let r := f s
    ⟨r.stat, r.pvalue, r.crit1, r.crit5, r.crit10,
     if r.pvalue ≤ 1/20 then true else false⟩

end Svc
/-- Claim C2 fails on the code: the services `pairwise_regression` returns
None — no result object at all — when both tick frames are empty
(src/services/analytics.py lines 90-91), whatever the model fit would be. -/
theorem regression_none_counterexample :
    Svc.pairwise_regression (fun _ _ => ⟨[], 0, 0⟩) [] [] 60 = none := by
  unfold Svc.pairwise_regression
  rw [if_pos (Or.inl rfl)]

/-- Claim C2 (amended): `adf_test` and `calculate_spread_zscore` always
return fully-populated result objects (adf_test returns its documented
fallback below 10 points), but the services `pairwise_regression` returns
None whenever either input frame has fewer than 10 ticks, the services
`rolling_correlation` returns None on an empty input frame, and the app
`pairwise_regression` fallback objects omit the intercept field: the
intercept is present exactly on the success path. -/
theorem analytics_absent_results :
    (∀ (ols : List ℚ → List ℚ → OlsModel) (df1 df2 : List Tick) (iv : ℚ),
      df1.length < 10 → Svc.pairwise_regression ols df1 df2 iv = none) ∧
    (∀ (df1 df2 : List Tick) (w : ℕ) (iv : ℚ),
      df1 = [] → Svc.rolling_correlation df1 df2 w iv = none) ∧
    (∀ (f : List ℚ → Svc.AdfRaw) (s : List ℚ), s.length < 10 →
      Svc.adf_test f s = ⟨0, 1, 0, 0, 0, false⟩) ∧
    (∀ X y : List ℚ, (App.pairwise_regression_core X y).intercept = none ↔
      (X.length < 3 ∨ regDenominator X = 0)) := by
  refine ⟨?_, ?_, ?_, ?_⟩
  · intro ols df1 df2 iv h
    unfold Svc.pairwise_regression
    rw [if_pos (Or.inr (Or.inr (Or.inl h)))]
  · intro df1 df2 w iv h
    subst h
    unfold Svc.rolling_correlation
    rw [if_pos (Or.inl rfl)]
  · intro f s h
    unfold Svc.adf_test
    rw [if_pos h]
  · intro X y
    by_cases h3 : X.length < 3
    · simp [App.pairwise_regression_core, h3, App.sentinelLowConfidence]
    · by_cases hden : regDenominator X = 0
      · simp [App.pairwise_regression_core, h3, hden, App.fallbackDegenerate,
              if_neg (by omega : ¬ X.length < 2)]
      · simp [App.pairwise_regression_core, h3, hden,
              if_neg (by omega : ¬ X.length < 2)]

/-- Concrete instance of `analytics_absent_results`: a one-tick frame makes
pairwise_regression return None, an empty frame makes rolling_correlation
return None, a 3-point series gets the ADF fallback, and the app regression
on two joined points emits no intercept. -/
theorem analytics_absent_results_witness :
    Svc.pairwise_regression (fun _ _ => ⟨[], 0, 0⟩) [⟨"x", 0, 1, 1⟩] [] 60 = none ∧
      Svc.rolling_correlation [] [⟨"x", 0, 1, 1⟩] 20 60 = none ∧
      Svc.adf_test (fun _ => ⟨0, 0, 0, 0, 0⟩) [1, 2, 4] = ⟨0, 1, 0, 0, 0, false⟩ ∧
      (App.pairwise_regression_core [5, 5] [1, 2]).intercept = none :=
  ⟨analytics_absent_results.1 _ _ _ _ (by norm_num),
   analytics_absent_results.2.1 _ _ _ _ rfl,
   analytics_absent_results.2.2.1 _ _ (by norm_num),
   (analytics_absent_results.2.2.2 [5, 5] [1, 2]).mpr (Or.inl (by norm_num))⟩
